import Mathlib

/-!
# Verification of `xdp_filter.c` (WRAITH-Protocol XDP packet filter)

A shallow embedding of `src/crates/wraith-xdp/src/xdp_filter.c`.

The packet buffer (`ctx->data` .. `ctx->data_end`) is modelled as a
`List Nat` of bytes; `data` is offset 0 and `data_end` is the list's
length, so pointer-bounds checks `p + sizeof(S) > data_end` become
`off + size > bytes.length`.  Multi-byte fields are stored on the wire
in network byte order; `bpf_ntohs(field)` on a 16-bit field therefore
reads the two bytes big-endian, which `readBE16` does directly.  The
BPF per-CPU statistics array is a partial map `Nat → Option Nat`
(slot index to 64-bit value; `bpf_map_lookup_elem` may return NULL),
with additions taken mod 2^64 as `__sync_fetch_and_add` on a `__u64`
does.  The `xsks_map`/`bpf_redirect_map` pair is modelled by a
function `xsks : Nat → Bool` telling, per RX queue, whether the
redirect call returns `XDP_REDIRECT`; any other return value makes the
code take the drop branch, so a single Bool captures the outcome.
-/

/-- XDP action code `XDP_ABORTED` (stands for any non-redirect failure
return of `bpf_redirect_map` with flags 0). -/
def XDP_ABORTED : Nat := 0

/-- XDP action code `XDP_DROP`. -/
def XDP_DROP : Nat := 1

/-- XDP action code `XDP_PASS`. -/
def XDP_PASS : Nat := 2

/-- XDP action code `XDP_REDIRECT`. -/
def XDP_REDIRECT : Nat := 4

/-- `ETH_P_IP` (IPv4 ethertype, host order). -/
def ETH_P_IP : Nat := 0x0800

/-- `ETH_P_IPV6` (IPv6 ethertype, host order). -/
def ETH_P_IPV6 : Nat := 0x86DD

/-- `IPPROTO_UDP`. -/
def IPPROTO_UDP : Nat := 17

/-- `WRAITH_PORT_MIN` from the source. -/
def WRAITH_PORT_MIN : Nat := 40000

/-- `WRAITH_PORT_MAX` from the source. -/
def WRAITH_PORT_MAX : Nat := 50000

/-- `sizeof(struct ethhdr)`: 6 + 6 + 2 bytes. -/
def sizeof_ethhdr : Nat := 14

/-- `sizeof(struct iphdr)`: the minimal 20-byte IPv4 header. -/
def sizeof_iphdr : Nat := 20

/-- `sizeof(struct ipv6hdr)`: the fixed 40-byte IPv6 header. -/
def sizeof_ipv6hdr : Nat := 40

/-- `sizeof(struct udphdr)`: 8 bytes. -/
def sizeof_udphdr : Nat := 8

/-- Statistic index `STAT_RX_PACKETS`. -/
def STAT_RX_PACKETS : Nat := 0

/-- Statistic index `STAT_RX_BYTES`. -/
def STAT_RX_BYTES : Nat := 1

/-- Statistic index `STAT_DROPPED`. -/
def STAT_DROPPED : Nat := 2

/-- Statistic index `STAT_REDIRECTED`. -/
def STAT_REDIRECTED : Nat := 3

/-- Read one byte of the packet buffer (the code only reads inside
bounds it has already checked, so the default 0 is never relied on). -/
def readByte (b : List Nat) (i : Nat) : Nat := b.getD i 0

/-- Read a 16-bit field stored in network byte order and give its host
value, as `bpf_ntohs` applied to a `__be16` load does. -/
def readBE16 (b : List Nat) (i : Nat) : Nat :=
  256 * readByte b i + readByte b (i + 1)

/-- The `xdp_md` context: the frame bytes between `data` and
`data_end`, and `rx_queue_index`. -/
structure XdpMd where
  data : List Nat
  rx_queue_index : Nat

/-- The per-CPU `stats_map`: slot index to 64-bit counter value, `none`
when `bpf_map_lookup_elem` returns NULL. -/
def StatsMap : Type := Nat → Option Nat

/-- `update_stat`: look the slot up and, when present, add `delta`
(64-bit wraparound); a failed lookup is a silent no-op. -/
def update_stat (stats : StatsMap) (ty : Nat) (delta : Nat) : StatsMap :=
  match stats ty with
  | none => stats
  | some v => fun i => if i = ty then some ((v + delta) % 2 ^ 64) else stats i

/-- `bpf_redirect_map(&xsks_map, queue_id, 0)`: `XDP_REDIRECT` when the
queue's redirect succeeds, otherwise the failure action (flags = 0
gives `XDP_ABORTED`); the caller only tests `ret == XDP_REDIRECT`. -/
def bpf_redirect_map (xsks : Nat → Bool) (queue_id : Nat) : Nat :=
  if xsks queue_id then XDP_REDIRECT else XDP_ABORTED

/-- `parse_ethhdr`: bounds-check `data + sizeof(struct ethhdr) ≤
data_end`; `true` is the C return 0, `false` is -1. -/
def parse_ethhdr (b : List Nat) : Bool :=
  decide (sizeof_ethhdr ≤ b.length)

/-- Offset of `eth->h_proto` (after the two 6-byte MAC addresses). -/
def h_proto_off : Nat := 12

/-- Offset of the L3 header: `data + sizeof(struct ethhdr)`. -/
def iphdr_off : Nat := sizeof_ethhdr

/-- `iphdr->version`: high nibble of the first IPv4 header byte. -/
def ip_version (b : List Nat) : Nat := readByte b iphdr_off / 16

/-- `iphdr->ihl`: low nibble of the first IPv4 header byte. -/
def ip_ihl (b : List Nat) : Nat := readByte b iphdr_off % 16

/-- `iphdr->frag_off` as a host-order value (the C code masks the raw
`__be16` with `bpf_htons(0x1FFF)`, which equals masking the host-order
value with `0x1FFF`). -/
def ip_frag_off (b : List Nat) : Nat := readBE16 b (iphdr_off + 6)

/-- `iphdr->protocol` (byte 9 of the IPv4 header). -/
def ip_protocol (b : List Nat) : Nat := readByte b (iphdr_off + 9)

/-- `parse_iphdr`: bounds check for a minimal IPv4 header, version = 4,
and `(frag_off & bpf_htons(0x1FFF)) == 0`. -/
def parse_iphdr (b : List Nat) : Bool :=
  decide (iphdr_off + sizeof_iphdr ≤ b.length)
  && (ip_version b == 4)
  && (ip_frag_off b &&& 0x1FFF == 0)

/-- `ipv6hdr->version`: high nibble of the first IPv6 header byte. -/
def ipv6_version (b : List Nat) : Nat := readByte b iphdr_off / 16

/-- `ipv6hdr->nexthdr` (byte 6 of the IPv6 header). -/
def ipv6_nexthdr (b : List Nat) : Nat := readByte b (iphdr_off + 6)

/-- `parse_ipv6hdr`: bounds check for the fixed 40-byte header and
version = 6. -/
def parse_ipv6hdr (b : List Nat) : Bool :=
  decide (iphdr_off + sizeof_ipv6hdr ≤ b.length)
  && (ipv6_version b == 6)

/-- `(void *)iphdr + (iphdr->ihl * 4)`: where `parse_udphdr_v4` places
the UDP header. -/
def udp_off_v4 (b : List Nat) : Nat := iphdr_off + ip_ihl b * 4

/-- `parse_udphdr_v4`: protocol must be UDP and a full UDP header must
fit after the IHL-scaled IPv4 header. -/
def parse_udphdr_v4 (b : List Nat) : Bool :=
  (ip_protocol b == IPPROTO_UDP)
  && decide (udp_off_v4 b + sizeof_udphdr ≤ b.length)

/-- `(void *)ipv6hdr + sizeof(struct ipv6hdr)`: where `parse_udphdr_v6`
places the UDP header. -/
def udp_off_v6 : Nat := iphdr_off + sizeof_ipv6hdr

/-- `parse_udphdr_v6`: next header must be UDP and a full UDP header
must fit after the fixed 40-byte IPv6 header. -/
def parse_udphdr_v6 (b : List Nat) : Bool :=
  (ipv6_nexthdr b == IPPROTO_UDP)
  && decide (udp_off_v6 + sizeof_udphdr ≤ b.length)

/-- `udp->dest` of the v4-located UDP header, converted by `bpf_ntohs`. -/
def udp_dest_v4 (b : List Nat) : Nat := readBE16 b (udp_off_v4 b + 2)

/-- `udp->dest` of the v6-located UDP header, converted by `bpf_ntohs`. -/
def udp_dest_v6 (b : List Nat) : Nat := readBE16 b (udp_off_v6 + 2)

/-- `is_wraith_port`: destination port in the closed range
[`WRAITH_PORT_MIN`, `WRAITH_PORT_MAX`]. -/
def is_wraith_port (dport : Nat) : Bool :=
  decide (WRAITH_PORT_MIN ≤ dport) && decide (dport ≤ WRAITH_PORT_MAX)

/-- `xdp_wraith_filter`: the XDP entry point.  Returns the disposition
and the statistics map after the invocation. -/
def xdp_wraith_filter (ctx : XdpMd) (xsks : Nat → Bool) (stats : StatsMap) :
    Nat × StatsMap :=
  let b := ctx.data
  if !parse_ethhdr b then (XDP_PASS, stats)
  else
    let eth_proto := readBE16 b h_proto_off
    if eth_proto == ETH_P_IP then
      if !parse_iphdr b then (XDP_PASS, stats)
      else if !parse_udphdr_v4 b then (XDP_PASS, stats)
      else
        let dport := udp_dest_v4 b
        if !is_wraith_port dport then (XDP_PASS, stats)
        else
          let stats1 := update_stat stats STAT_RX_PACKETS 1
          let stats2 := update_stat stats1 STAT_RX_BYTES b.length
          let ret := bpf_redirect_map xsks ctx.rx_queue_index
          if ret == XDP_REDIRECT then
            (XDP_REDIRECT, update_stat stats2 STAT_REDIRECTED 1)
          else
            (XDP_DROP, update_stat stats2 STAT_DROPPED 1)
    else if eth_proto == ETH_P_IPV6 then
      if !parse_ipv6hdr b then (XDP_PASS, stats)
      else if !parse_udphdr_v6 b then (XDP_PASS, stats)
      else
        let dport := udp_dest_v6 b
        if !is_wraith_port dport then (XDP_PASS, stats)
        else
          let stats1 := update_stat stats STAT_RX_PACKETS 1
          let stats2 := update_stat stats1 STAT_RX_BYTES b.length
          let ret := bpf_redirect_map xsks ctx.rx_queue_index
          if ret == XDP_REDIRECT then
            (XDP_REDIRECT, update_stat stats2 STAT_REDIRECTED 1)
          else
            (XDP_DROP, update_stat stats2 STAT_DROPPED 1)
    else (XDP_PASS, stats)

/-- Whether a frame matches every WRAITH selection criterion, exactly
as the chain of checks in `xdp_wraith_filter` tests them. -/
def matches_wraith (b : List Nat) : Bool :=
  parse_ethhdr b
  && ((readBE16 b h_proto_off == ETH_P_IP && parse_iphdr b
        && parse_udphdr_v4 b && is_wraith_port (udp_dest_v4 b))
      || (readBE16 b h_proto_off == ETH_P_IPV6 && parse_ipv6hdr b
        && parse_udphdr_v6 b && is_wraith_port (udp_dest_v6 b)))

/-- Iterate the entry point over a list of frames, threading the
statistics map: the "N invocations" of the spec's counter properties. -/
def runAll : List XdpMd → (Nat → Bool) → StatsMap → StatsMap
  | [], _, st => st
  | c :: cs, xsks, st => runAll cs xsks (xdp_wraith_filter c xsks st).2

/-- A 42-byte Ethernet+IPv4+UDP test frame: zero MACs, ethertype
0x0800, version 4, IHL 5, the given two fragment-field bytes, TTL 64,
protocol UDP, and the given two UDP destination-port bytes. -/
def pktV4 (fragHi fragLo dHi dLo : Nat) : List Nat :=
  [0, 0, 0, 0, 0, 0, 0, 0, 0, 0, 0, 0, 0x08, 0x00,
   0x45, 0, 0x00, 0x1C, 0, 0, fragHi, fragLo, 64, 17, 0, 0,
   10, 0, 0, 1, 10, 0, 0, 2,
   0, 0, dHi, dLo, 0, 8, 0, 0]

/-- A 62-byte Ethernet+IPv6+UDP test frame with the given two UDP
destination-port bytes. -/
def pktV6 (dHi dLo : Nat) : List Nat :=
  [0, 0, 0, 0, 0, 0, 0, 0, 0, 0, 0, 0, 0x86, 0xDD,
   0x60, 0, 0, 0, 0, 8, 17, 64] ++ List.replicate 32 0 ++
  [0, 0, dHi, dLo, 0, 8, 0, 0]

/-- A 34-byte IPv4 frame whose IHL nibble is 0 (version 4, byte
`0x40`): non-fragmented, protocol UDP, and whose IPv4 total-length
field bytes are `0x9C 0x40` (the bytes an IHL-0 "UDP header view"
reads as the destination port, 40000). -/
def pktIhl0 : List Nat :=
  [0, 0, 0, 0, 0, 0, 0, 0, 0, 0, 0, 0, 0x08, 0x00,
   0x40, 0, 0x9C, 0x40, 0, 0, 0, 0, 64, 17, 0, 0,
   10, 0, 0, 1, 10, 0, 0, 2]

/-- A 46-byte IPv4+UDP frame with IHL 6 (a 24-byte IPv4 header with
one options word), protocol UDP, destination port 41000 placed after
the 24-byte header. -/
def pktIhl6 : List Nat :=
  [0, 0, 0, 0, 0, 0, 0, 0, 0, 0, 0, 0, 0x08, 0x00,
   0x46, 0, 0x00, 0x20, 0, 0, 0, 0, 64, 17, 0, 0,
   10, 0, 0, 1, 10, 0, 0, 2, 0, 0, 0, 0,
   0, 0, 0xA0, 0x28, 0, 8, 0, 0]

/-- The `pktV4` layout but with IPv4 protocol 6 (TCP), bytes 36-37
(where UDP's destination port would sit) spelling 41000. -/
def pktTcp : List Nat :=
  [0, 0, 0, 0, 0, 0, 0, 0, 0, 0, 0, 0, 0x08, 0x00,
   0x45, 0, 0x00, 0x1C, 0, 0, 0, 0, 64, 6, 0, 0,
   10, 0, 0, 1, 10, 0, 0, 2,
   0, 0, 0xA0, 0x28, 0, 8, 0, 0]

/-- A statistics map with the four slots present and zero. -/
def st0 : StatsMap := fun i => if i < 4 then some 0 else none

/-- A statistics map with the four slots present at other values. -/
def stAlt : StatsMap := fun i => if i < 4 then some 77 else none

/-- A redirect table in which every queue's redirect succeeds. -/
def xsksT : Nat → Bool := fun _ => true

/-- A redirect table in which every queue's redirect fails. -/
def xsksF : Nat → Bool := fun _ => false

/-- A redirect table in which only queue 0's redirect succeeds. -/
def xsksQ : Nat → Bool := fun q => q == 0

lemma update_stat_ne {st : StatsMap} {ty delta i : Nat} (h : i ≠ ty) :
    update_stat st ty delta i = st i := by
  unfold update_stat
  cases hty : st ty with
  | none => rfl
  | some v => simp [h]

lemma update_stat_self (st : StatsMap) (ty delta : Nat) :
    update_stat st ty delta ty = (st ty).map (fun v => (v + delta) % 2 ^ 64) := by
  unfold update_stat
  cases hty : st ty with
  | none => simp [hty]
  | some v => simp [hty]

lemma run_eq (ctx : XdpMd) (xsks : Nat → Bool) (st : StatsMap) :
    xdp_wraith_filter ctx xsks st =
      if matches_wraith ctx.data then
        (if xsks ctx.rx_queue_index then
          (XDP_REDIRECT,
            update_stat (update_stat (update_stat st STAT_RX_PACKETS 1)
              STAT_RX_BYTES ctx.data.length) STAT_REDIRECTED 1)
         else
          (XDP_DROP,
            update_stat (update_stat (update_stat st STAT_RX_PACKETS 1)
              STAT_RX_BYTES ctx.data.length) STAT_DROPPED 1))
      else (XDP_PASS, st) := by
  obtain ⟨b, q⟩ := ctx
  unfold xdp_wraith_filter matches_wraith bpf_redirect_map
  cases hE : parse_ethhdr b
  · simp [hE]
  · cases hP4 : (readBE16 b h_proto_off == ETH_P_IP)
    · cases hP6 : (readBE16 b h_proto_off == ETH_P_IPV6)
      · simp [hE, hP4, hP6]
      · cases hI6 : parse_ipv6hdr b
        · simp [hE, hP4, hP6, hI6]
        · cases hU6 : parse_udphdr_v6 b
          · simp [hE, hP4, hP6, hI6, hU6]
          · cases hW6 : is_wraith_port (udp_dest_v6 b)
            · simp [hE, hP4, hP6, hI6, hU6, hW6]
            · cases hx : xsks q <;>
                simp [hE, hP4, hP6, hI6, hU6, hW6, hx, XDP_REDIRECT, XDP_ABORTED]
    · have hP6 : (readBE16 b h_proto_off == ETH_P_IPV6) = false := by
        rw [beq_iff_eq] at hP4
        rw [hP4]
        decide
      cases hI4 : parse_iphdr b
      · simp [hE, hP4, hP6, hI4]
      · cases hU4 : parse_udphdr_v4 b
        · simp [hE, hP4, hP6, hI4, hU4]
        · cases hW4 : is_wraith_port (udp_dest_v4 b)
          · simp [hE, hP4, hP6, hI4, hU4, hW4]
          · cases hx : xsks q <;>
              simp [hE, hP4, hP6, hI4, hU4, hW4, hx, XDP_REDIRECT, XDP_ABORTED]

lemma run_no_match (ctx : XdpMd) (xsks : Nat → Bool) (st : StatsMap)
    (h : matches_wraith ctx.data = false) :
    xdp_wraith_filter ctx xsks st = (XDP_PASS, st) := by
  rw [run_eq, h]
  simp

lemma run_match_redirect (ctx : XdpMd) (xsks : Nat → Bool) (st : StatsMap)
    (hm : matches_wraith ctx.data = true) (hx : xsks ctx.rx_queue_index = true) :
    xdp_wraith_filter ctx xsks st =
      (XDP_REDIRECT,
        update_stat (update_stat (update_stat st STAT_RX_PACKETS 1)
          STAT_RX_BYTES ctx.data.length) STAT_REDIRECTED 1) := by
  rw [run_eq, hm, hx]
  simp

lemma run_match_drop (ctx : XdpMd) (xsks : Nat → Bool) (st : StatsMap)
    (hm : matches_wraith ctx.data = true) (hx : xsks ctx.rx_queue_index = false) :
    xdp_wraith_filter ctx xsks st =
      (XDP_DROP,
        update_stat (update_stat (update_stat st STAT_RX_PACKETS 1)
          STAT_RX_BYTES ctx.data.length) STAT_DROPPED 1) := by
  rw [run_eq, hm, hx]
  simp

lemma chain_redirect_slots (st : StatsMap) (len : Nat) :
    update_stat (update_stat (update_stat st STAT_RX_PACKETS 1)
        STAT_RX_BYTES len) STAT_REDIRECTED 1 STAT_RX_PACKETS
      = (st STAT_RX_PACKETS).map (fun v => (v + 1) % 2 ^ 64)
    ∧ update_stat (update_stat (update_stat st STAT_RX_PACKETS 1)
        STAT_RX_BYTES len) STAT_REDIRECTED 1 STAT_RX_BYTES
      = (st STAT_RX_BYTES).map (fun v => (v + len) % 2 ^ 64)
    ∧ update_stat (update_stat (update_stat st STAT_RX_PACKETS 1)
        STAT_RX_BYTES len) STAT_REDIRECTED 1 STAT_DROPPED
      = st STAT_DROPPED
    ∧ update_stat (update_stat (update_stat st STAT_RX_PACKETS 1)
        STAT_RX_BYTES len) STAT_REDIRECTED 1 STAT_REDIRECTED
      = (st STAT_REDIRECTED).map (fun v => (v + 1) % 2 ^ 64)
    ∧ ∀ i, 4 ≤ i →
        update_stat (update_stat (update_stat st STAT_RX_PACKETS 1)
          STAT_RX_BYTES len) STAT_REDIRECTED 1 i = st i := by
  refine ⟨?_, ?_, ?_, ?_, ?_⟩
  · rw [update_stat_ne (by decide : (STAT_RX_PACKETS : Nat) ≠ STAT_REDIRECTED),
      update_stat_ne (by decide : (STAT_RX_PACKETS : Nat) ≠ STAT_RX_BYTES),
      update_stat_self]
  · rw [update_stat_ne (by decide : (STAT_RX_BYTES : Nat) ≠ STAT_REDIRECTED),
      update_stat_self,
      update_stat_ne (by decide : (STAT_RX_BYTES : Nat) ≠ STAT_RX_PACKETS)]
  · rw [update_stat_ne (by decide : (STAT_DROPPED : Nat) ≠ STAT_REDIRECTED),
      update_stat_ne (by decide : (STAT_DROPPED : Nat) ≠ STAT_RX_BYTES),
      update_stat_ne (by decide : (STAT_DROPPED : Nat) ≠ STAT_RX_PACKETS)]
  · rw [update_stat_self,
      update_stat_ne (by decide : (STAT_REDIRECTED : Nat) ≠ STAT_RX_BYTES),
      update_stat_ne (by decide : (STAT_REDIRECTED : Nat) ≠ STAT_RX_PACKETS)]
  · intro i hi
    rw [update_stat_ne (by simp only [STAT_REDIRECTED]; omega),
      update_stat_ne (by simp only [STAT_RX_BYTES]; omega),
      update_stat_ne (by simp only [STAT_RX_PACKETS]; omega)]

lemma chain_drop_slots (st : StatsMap) (len : Nat) :
    update_stat (update_stat (update_stat st STAT_RX_PACKETS 1)
        STAT_RX_BYTES len) STAT_DROPPED 1 STAT_RX_PACKETS
      = (st STAT_RX_PACKETS).map (fun v => (v + 1) % 2 ^ 64)
    ∧ update_stat (update_stat (update_stat st STAT_RX_PACKETS 1)
        STAT_RX_BYTES len) STAT_DROPPED 1 STAT_RX_BYTES
      = (st STAT_RX_BYTES).map (fun v => (v + len) % 2 ^ 64)
    ∧ update_stat (update_stat (update_stat st STAT_RX_PACKETS 1)
        STAT_RX_BYTES len) STAT_DROPPED 1 STAT_DROPPED
      = (st STAT_DROPPED).map (fun v => (v + 1) % 2 ^ 64)
    ∧ update_stat (update_stat (update_stat st STAT_RX_PACKETS 1)
        STAT_RX_BYTES len) STAT_DROPPED 1 STAT_REDIRECTED
      = st STAT_REDIRECTED
    ∧ ∀ i, 4 ≤ i →
        update_stat (update_stat (update_stat st STAT_RX_PACKETS 1)
          STAT_RX_BYTES len) STAT_DROPPED 1 i = st i := by
  refine ⟨?_, ?_, ?_, ?_, ?_⟩
  · rw [update_stat_ne (by decide : (STAT_RX_PACKETS : Nat) ≠ STAT_DROPPED),
      update_stat_ne (by decide : (STAT_RX_PACKETS : Nat) ≠ STAT_RX_BYTES),
      update_stat_self]
  · rw [update_stat_ne (by decide : (STAT_RX_BYTES : Nat) ≠ STAT_DROPPED),
      update_stat_self,
      update_stat_ne (by decide : (STAT_RX_BYTES : Nat) ≠ STAT_RX_PACKETS)]
  · rw [update_stat_self,
      update_stat_ne (by decide : (STAT_DROPPED : Nat) ≠ STAT_RX_BYTES),
      update_stat_ne (by decide : (STAT_DROPPED : Nat) ≠ STAT_RX_PACKETS)]
  · rw [update_stat_ne (by decide : (STAT_REDIRECTED : Nat) ≠ STAT_DROPPED),
      update_stat_ne (by decide : (STAT_REDIRECTED : Nat) ≠ STAT_RX_BYTES),
      update_stat_ne (by decide : (STAT_REDIRECTED : Nat) ≠ STAT_RX_PACKETS)]
  · intro i hi
    rw [update_stat_ne (by simp only [STAT_DROPPED]; omega),
      update_stat_ne (by simp only [STAT_RX_BYTES]; omega),
      update_stat_ne (by simp only [STAT_RX_PACKETS]; omega)]

/-- C3: every invocation of `xdp_wraith_filter`, on any buffer, queue,
redirect table and statistics state, returns exactly one of the three
dispositions `XDP_PASS`, `XDP_DROP`, `XDP_REDIRECT`: the disjunction
is exhaustive, and the three codes are pairwise distinct so at most
one equation can hold. -/
theorem disposition_trichotomy (ctx : XdpMd) (xsks : Nat → Bool) (st : StatsMap) :
    ((xdp_wraith_filter ctx xsks st).1 = XDP_PASS
      ∨ (xdp_wraith_filter ctx xsks st).1 = XDP_DROP
      ∨ (xdp_wraith_filter ctx xsks st).1 = XDP_REDIRECT)
    ∧ ¬((xdp_wraith_filter ctx xsks st).1 = XDP_PASS
        ∧ (xdp_wraith_filter ctx xsks st).1 = XDP_DROP)
    ∧ ¬((xdp_wraith_filter ctx xsks st).1 = XDP_PASS
        ∧ (xdp_wraith_filter ctx xsks st).1 = XDP_REDIRECT)
    ∧ ¬((xdp_wraith_filter ctx xsks st).1 = XDP_DROP
        ∧ (xdp_wraith_filter ctx xsks st).1 = XDP_REDIRECT) := by
  refine ⟨?_, ?_, ?_, ?_⟩
  · rw [run_eq]
    cases hm : matches_wraith ctx.data
    · simp
    · cases hx : xsks ctx.rx_queue_index <;> simp
  · rintro ⟨h1, h2⟩
    rw [h1] at h2
    exact absurd h2 (by decide)
  · rintro ⟨h1, h2⟩
    rw [h1] at h2
    exact absurd h2 (by decide)
  · rintro ⟨h1, h2⟩
    rw [h1] at h2
    exact absurd h2 (by decide)

/-- C6: on any buffer on which some parse step or the port check fails
(`matches_wraith` false), the disposition is `XDP_PASS` and no
statistics slot is modified. -/
theorem parse_failure_passes_unchanged (ctx : XdpMd) (xsks : Nat → Bool)
    (st : StatsMap) (h : matches_wraith ctx.data = false) :
    (xdp_wraith_filter ctx xsks st).1 = XDP_PASS
    ∧ ∀ i, (xdp_wraith_filter ctx xsks st).2 i = st i := by
  rw [run_no_match ctx xsks st h]
  exact ⟨rfl, fun i => rfl⟩

/-- C6 witness: a 1-byte buffer (shorter than an Ethernet header)
passes and leaves the statistics untouched. -/
theorem parse_failure_passes_unchanged_w :
    (xdp_wraith_filter ⟨[0x08], 0⟩ xsksT st0).1 = XDP_PASS
    ∧ (xdp_wraith_filter ⟨[0x08], 0⟩ xsksT st0).2 0 = st0 0 := by
  have h := parse_failure_passes_unchanged ⟨[0x08], 0⟩ xsksT st0 (by decide)
  exact ⟨h.1, h.2 0⟩

/-- C8: the dispatch is deterministic: equal buffer, equal RX queue and
equal redirect-table outcomes give the identical disposition whatever
the statistics state of either invocation. -/
theorem filter_deterministic (c1 c2 : XdpMd) (xsks : Nat → Bool)
    (st1 st2 : StatsMap) (hd : c1.data = c2.data)
    (hq : c1.rx_queue_index = c2.rx_queue_index) :
    (xdp_wraith_filter c1 xsks st1).1 = (xdp_wraith_filter c2 xsks st2).1 := by
  rw [run_eq, run_eq, hd, hq]
  cases matches_wraith c2.data <;> cases xsks c2.rx_queue_index <;> simp

/-- C8 witness: the same frame on the same queue with two different
statistics states yields the same disposition. -/
theorem filter_deterministic_w :
    (xdp_wraith_filter ⟨pktV4 0 0 0xA0 0x28, 3⟩ xsksT st0).1
      = (xdp_wraith_filter ⟨pktV4 0 0 0xA0 0x28, 3⟩ xsksT stAlt).1 :=
  filter_deterministic ⟨pktV4 0 0 0xA0 0x28, 3⟩ ⟨pktV4 0 0 0xA0 0x28, 3⟩
    xsksT st0 stAlt rfl rfl

/-- C4: when a packet matches every WRAITH criterion but the redirect
call does not return `XDP_REDIRECT`, the disposition is `XDP_DROP`,
the dropped counter is incremented by 1, and the redirected counter is
left exactly as it was. -/
theorem redirect_failure_drops (ctx : XdpMd) (xsks : Nat → Bool) (st : StatsMap)
    (hm : matches_wraith ctx.data = true)
    (hx : xsks ctx.rx_queue_index = false) :
    (xdp_wraith_filter ctx xsks st).1 = XDP_DROP
    ∧ (∀ v, st STAT_DROPPED = some v →
        (xdp_wraith_filter ctx xsks st).2 STAT_DROPPED = some ((v + 1) % 2 ^ 64))
    ∧ (xdp_wraith_filter ctx xsks st).2 STAT_REDIRECTED = st STAT_REDIRECTED := by
  rw [run_match_drop ctx xsks st hm hx]
  dsimp only
  refine ⟨rfl, ?_, ?_⟩
  · intro v hv
    rw [(chain_drop_slots st ctx.data.length).2.2.1, hv]
    rfl
  · exact (chain_drop_slots st ctx.data.length).2.2.2.1

/-- C4 witness: a matching IPv4 frame (port 41000) whose queue's
redirect fails is dropped, `dropped` goes 0 → 1, `redirected` stays. -/
theorem redirect_failure_drops_w :
    (xdp_wraith_filter ⟨pktV4 0 0 0xA0 0x28, 0⟩ xsksF st0).1 = XDP_DROP
    ∧ (xdp_wraith_filter ⟨pktV4 0 0 0xA0 0x28, 0⟩ xsksF st0).2 STAT_DROPPED = some 1
    ∧ (xdp_wraith_filter ⟨pktV4 0 0 0xA0 0x28, 0⟩ xsksF st0).2 STAT_REDIRECTED
        = st0 STAT_REDIRECTED := by
  have h := redirect_failure_drops ⟨pktV4 0 0 0xA0 0x28, 0⟩ xsksF st0 (by decide) rfl
  refine ⟨h.1, ?_, h.2.2⟩
  have h2 := h.2.1 0 (by decide)
  rw [h2]
  decide

lemma is_wraith_port_iff (p : Nat) :
    is_wraith_port p = true ↔ (WRAITH_PORT_MIN ≤ p ∧ p ≤ WRAITH_PORT_MAX) := by
  simp [is_wraith_port]

/-- C2: for a well-formed UDP frame — IPv4 (non-fragmented, parses) or
IPv6 — the disposition is `XDP_REDIRECT` or `XDP_DROP` exactly when
the host-order destination port lies in [40000, 50000], on either
address family, for every queue, redirect table and statistics state. -/
theorem port_range_gates_disposition (b : List Nat) (q : Nat)
    (xsks : Nat → Bool) (st : StatsMap) (heth : parse_ethhdr b = true) :
    (readBE16 b h_proto_off = ETH_P_IP → parse_iphdr b = true →
      parse_udphdr_v4 b = true →
      (((xdp_wraith_filter ⟨b, q⟩ xsks st).1 = XDP_REDIRECT
        ∨ (xdp_wraith_filter ⟨b, q⟩ xsks st).1 = XDP_DROP)
        ↔ (WRAITH_PORT_MIN ≤ udp_dest_v4 b ∧ udp_dest_v4 b ≤ WRAITH_PORT_MAX)))
    ∧ (readBE16 b h_proto_off = ETH_P_IPV6 → parse_ipv6hdr b = true →
      parse_udphdr_v6 b = true →
      (((xdp_wraith_filter ⟨b, q⟩ xsks st).1 = XDP_REDIRECT
        ∨ (xdp_wraith_filter ⟨b, q⟩ xsks st).1 = XDP_DROP)
        ↔ (WRAITH_PORT_MIN ≤ udp_dest_v6 b ∧ udp_dest_v6 b ≤ WRAITH_PORT_MAX))) := by
  constructor
  · intro hp hip hud
    cases hw : is_wraith_port (udp_dest_v4 b)
    · have hp6 : (readBE16 b h_proto_off == ETH_P_IPV6) = false := by
        rw [hp]; decide
      have hm : matches_wraith b = false := by
        simp [matches_wraith, hp, hw, ETH_P_IP, ETH_P_IPV6]
      rw [run_no_match ⟨b, q⟩ xsks st hm]
      dsimp only
      constructor
      · rintro (h | h) <;> exact absurd h (by decide)
      · intro hcontra
        exact absurd ((is_wraith_port_iff _).mpr hcontra) (by simp [hw])
    · have hm : matches_wraith b = true := by
        simp [matches_wraith, heth, hp, hip, hud, hw]
      cases hx : xsks q
      · rw [run_match_drop ⟨b, q⟩ xsks st hm hx]
        dsimp only
        exact ⟨fun _ => (is_wraith_port_iff _).mp hw, fun _ => Or.inr rfl⟩
      · rw [run_match_redirect ⟨b, q⟩ xsks st hm hx]
        dsimp only
        exact ⟨fun _ => (is_wraith_port_iff _).mp hw, fun _ => Or.inl rfl⟩
  · intro hp hip hud
    cases hw : is_wraith_port (udp_dest_v6 b)
    · have hp4 : (readBE16 b h_proto_off == ETH_P_IP) = false := by
        rw [hp]; decide
      have hm : matches_wraith b = false := by
        simp [matches_wraith, hp, hw, ETH_P_IP, ETH_P_IPV6]
      rw [run_no_match ⟨b, q⟩ xsks st hm]
      dsimp only
      constructor
      · rintro (h | h) <;> exact absurd h (by decide)
      · intro hcontra
        exact absurd ((is_wraith_port_iff _).mpr hcontra) (by simp [hw])
    · have hp4 : (readBE16 b h_proto_off == ETH_P_IP) = false := by
        rw [hp]; decide
      have hm : matches_wraith b = true := by
        simp [matches_wraith, heth, hp, hp4, hip, hud, hw]
      cases hx : xsks q
      · rw [run_match_drop ⟨b, q⟩ xsks st hm hx]
        dsimp only
        exact ⟨fun _ => (is_wraith_port_iff _).mp hw, fun _ => Or.inr rfl⟩
      · rw [run_match_redirect ⟨b, q⟩ xsks st hm hx]
        dsimp only
        exact ⟨fun _ => (is_wraith_port_iff _).mp hw, fun _ => Or.inl rfl⟩

/-- C2 witness: at the boundaries, ports 40000 and 50000 are eligible
(redirect or drop) while 39999 and 50001 pass, on both an IPv4 and an
IPv6 frame. -/
theorem port_range_gates_disposition_w :
    ((xdp_wraith_filter ⟨pktV4 0 0 0x9C 0x40, 0⟩ xsksT st0).1 = XDP_REDIRECT
      ∨ (xdp_wraith_filter ⟨pktV4 0 0 0x9C 0x40, 0⟩ xsksT st0).1 = XDP_DROP)
    ∧ ((xdp_wraith_filter ⟨pktV4 0 0 0xC3 0x50, 0⟩ xsksT st0).1 = XDP_REDIRECT
      ∨ (xdp_wraith_filter ⟨pktV4 0 0 0xC3 0x50, 0⟩ xsksT st0).1 = XDP_DROP)
    ∧ ¬((xdp_wraith_filter ⟨pktV4 0 0 0x9C 0x3F, 0⟩ xsksT st0).1 = XDP_REDIRECT
      ∨ (xdp_wraith_filter ⟨pktV4 0 0 0x9C 0x3F, 0⟩ xsksT st0).1 = XDP_DROP)
    ∧ ¬((xdp_wraith_filter ⟨pktV4 0 0 0xC3 0x51, 0⟩ xsksT st0).1 = XDP_REDIRECT
      ∨ (xdp_wraith_filter ⟨pktV4 0 0 0xC3 0x51, 0⟩ xsksT st0).1 = XDP_DROP)
    ∧ ((xdp_wraith_filter ⟨pktV6 0xA0 0x28, 0⟩ xsksT st0).1 = XDP_REDIRECT
      ∨ (xdp_wraith_filter ⟨pktV6 0xA0 0x28, 0⟩ xsksT st0).1 = XDP_DROP) := by
  refine ⟨?_, ?_, ?_, ?_, ?_⟩
  · exact ((port_range_gates_disposition (pktV4 0 0 0x9C 0x40) 0 xsksT st0
      (by decide)).1 (by decide) (by decide) (by decide)).mpr (by decide)
  · exact ((port_range_gates_disposition (pktV4 0 0 0xC3 0x50) 0 xsksT st0
      (by decide)).1 (by decide) (by decide) (by decide)).mpr (by decide)
  · intro hc
    exact absurd (((port_range_gates_disposition (pktV4 0 0 0x9C 0x3F) 0 xsksT st0
      (by decide)).1 (by decide) (by decide) (by decide)).mp hc) (by decide)
  · intro hc
    exact absurd (((port_range_gates_disposition (pktV4 0 0 0xC3 0x51) 0 xsksT st0
      (by decide)).1 (by decide) (by decide) (by decide)).mp hc) (by decide)
  · exact ((port_range_gates_disposition (pktV6 0xA0 0x28) 0 xsksT st0
      (by decide)).2 (by decide) (by decide) (by decide)).mpr (by decide)

/-- C7: the v4 UDP parse succeeds exactly when the IPv4 protocol field
is UDP and a full UDP header fits at `ip-header-start + ihl × 4`; the
UDP view is located at exactly that IHL-scaled offset, and whenever
the parse fails on an otherwise-accepted IPv4 frame the dispatch
returns `XDP_PASS`. -/
theorem udp_v4_offset_honors_ihl (b : List Nat) (q : Nat)
    (xsks : Nat → Bool) (st : StatsMap) :
    (parse_udphdr_v4 b = true ↔
      (ip_protocol b = IPPROTO_UDP
        ∧ iphdr_off + ip_ihl b * 4 + sizeof_udphdr ≤ b.length))
    ∧ udp_off_v4 b = iphdr_off + ip_ihl b * 4
    ∧ (parse_ethhdr b = true → readBE16 b h_proto_off = ETH_P_IP →
        parse_iphdr b = true → parse_udphdr_v4 b = false →
        (xdp_wraith_filter ⟨b, q⟩ xsks st).1 = XDP_PASS) := by
  refine ⟨?_, rfl, ?_⟩
  · simp [parse_udphdr_v4, udp_off_v4]
  · intro heth hp hip hpu
    have hp6 : (readBE16 b h_proto_off == ETH_P_IPV6) = false := by
      rw [hp]; decide
    have hm : matches_wraith b = false := by
      simp [matches_wraith, hp, hpu, ETH_P_IP, ETH_P_IPV6]
    rw [run_no_match ⟨b, q⟩ xsks st hm]

/-- C7 witness: a frame with IHL 6 has its UDP header accepted at
offset 14 + 24 = 38, and a well-formed IPv4 frame whose protocol is
TCP fails the UDP parse and passes. -/
theorem udp_v4_offset_honors_ihl_w :
    parse_udphdr_v4 pktIhl6 = true
    ∧ udp_off_v4 pktIhl6 = 38
    ∧ (xdp_wraith_filter ⟨pktTcp, 0⟩ xsksT st0).1 = XDP_PASS := by
  refine ⟨?_, ?_, ?_⟩
  · exact (udp_v4_offset_honors_ihl pktIhl6 0 xsksT st0).1.mpr (by decide)
  · rw [(udp_v4_offset_honors_ihl pktIhl6 0 xsksT st0).2.1]
    decide
  · exact (udp_v4_offset_honors_ihl pktTcp 0 xsksT st0).2.2
      (by decide) (by decide) (by decide) (by decide)

lemma chain_slots_generic (st : StatsMap) (len k i : Nat)
    (hk : k = STAT_DROPPED ∨ k = STAT_REDIRECTED) :
    update_stat (update_stat (update_stat st STAT_RX_PACKETS 1)
      STAT_RX_BYTES len) k 1 i = st i
    ∨ ∃ v d, st i = some v ∧ (d = 1 ∨ d = len)
        ∧ update_stat (update_stat (update_stat st STAT_RX_PACKETS 1)
            STAT_RX_BYTES len) k 1 i = some ((v + d) % 2 ^ 64) := by
  by_cases hik : i = k
  · subst hik
    have hne1 : i ≠ STAT_RX_BYTES := by rcases hk with h | h <;> (subst h; decide)
    have hne0 : i ≠ STAT_RX_PACKETS := by rcases hk with h | h <;> (subst h; decide)
    rw [update_stat_self, update_stat_ne hne1, update_stat_ne hne0]
    cases hv : st i with
    | none => left; rfl
    | some v => right; exact ⟨v, 1, rfl, Or.inl rfl, rfl⟩
  · by_cases hi0 : i = STAT_RX_PACKETS
    · subst hi0
      rw [update_stat_ne hik,
        update_stat_ne (by decide : (STAT_RX_PACKETS : Nat) ≠ STAT_RX_BYTES),
        update_stat_self]
      cases hv : st STAT_RX_PACKETS with
      | none => left; rfl
      | some v => right; exact ⟨v, 1, rfl, Or.inl rfl, rfl⟩
    · by_cases hi1 : i = STAT_RX_BYTES
      · subst hi1
        rw [update_stat_ne hik, update_stat_self, update_stat_ne hi0]
        cases hv : st STAT_RX_BYTES with
        | none => left; rfl
        | some v => right; exact ⟨v, len, rfl, Or.inr rfl, rfl⟩
      · rw [update_stat_ne hik, update_stat_ne hi1, update_stat_ne hi0]
        left; rfl

/-- C9: the only mutation one invocation performs on a statistics slot
is an addition of 1 or of the frame length (mod 2^64) to a present
slot; every other slot — in particular one whose lookup fails
(`none`) — is left exactly as it was, and while the 64-bit counter
does not overflow the stored value never decreases. -/
theorem counters_add_only (ctx : XdpMd) (xsks : Nat → Bool)
    (st : StatsMap) (i : Nat) :
    (xdp_wraith_filter ctx xsks st).2 i = st i
    ∨ ∃ v d, st i = some v ∧ (d = 1 ∨ d = ctx.data.length)
        ∧ (xdp_wraith_filter ctx xsks st).2 i = some ((v + d) % 2 ^ 64)
        ∧ (v + d < 2 ^ 64 → v ≤ (v + d) % 2 ^ 64) := by
  cases hm : matches_wraith ctx.data with
  | false =>
    left
    rw [run_no_match ctx xsks st hm]
  | true =>
    cases hx : xsks ctx.rx_queue_index with
    | false =>
      rw [run_match_drop ctx xsks st hm hx]
      dsimp only
      rcases chain_slots_generic st ctx.data.length STAT_DROPPED i (Or.inl rfl)
        with h | ⟨v, d, hv, hd, he⟩
      · exact Or.inl h
      · exact Or.inr ⟨v, d, hv, hd, he,
          fun hlt => by rw [Nat.mod_eq_of_lt hlt]; exact Nat.le_add_right v d⟩
    | true =>
      rw [run_match_redirect ctx xsks st hm hx]
      dsimp only
      rcases chain_slots_generic st ctx.data.length STAT_REDIRECTED i (Or.inr rfl)
        with h | ⟨v, d, hv, hd, he⟩
      · exact Or.inl h
      · exact Or.inr ⟨v, d, hv, hd, he,
          fun hlt => by rw [Nat.mod_eq_of_lt hlt]; exact Nat.le_add_right v d⟩

/-- C9 witness: a slot the backing store does not provide (index 7 of
`st0`) is silently left absent by a matching invocation. -/
theorem counters_add_only_w :
    (xdp_wraith_filter ⟨pktV4 0 0 0xA0 0x28, 0⟩ xsksT st0).2 7 = st0 7 := by
  rcases counters_add_only ⟨pktV4 0 0 0xA0 0x28, 0⟩ xsksT st0 7
    with h | ⟨v, d, hv, hd, he, hmono⟩
  · exact h
  · exact absurd hv (by simp [st0])

lemma run_match_slots (ctx : XdpMd) (xsks : Nat → Bool) (st : StatsMap)
    (v0 v1 v2 v3 : Nat) (hm : matches_wraith ctx.data = true)
    (h0 : st STAT_RX_PACKETS = some v0) (h1 : st STAT_RX_BYTES = some v1)
    (h2 : st STAT_DROPPED = some v2) (h3 : st STAT_REDIRECTED = some v3) :
    (xdp_wraith_filter ctx xsks st).2 STAT_RX_PACKETS = some ((v0 + 1) % 2 ^ 64)
    ∧ (xdp_wraith_filter ctx xsks st).2 STAT_RX_BYTES
        = some ((v1 + ctx.data.length) % 2 ^ 64)
    ∧ ((xsks ctx.rx_queue_index = false
        ∧ (xdp_wraith_filter ctx xsks st).2 STAT_DROPPED = some ((v2 + 1) % 2 ^ 64)
        ∧ (xdp_wraith_filter ctx xsks st).2 STAT_REDIRECTED = some v3)
      ∨ (xsks ctx.rx_queue_index = true
        ∧ (xdp_wraith_filter ctx xsks st).2 STAT_DROPPED = some v2
        ∧ (xdp_wraith_filter ctx xsks st).2 STAT_REDIRECTED
            = some ((v3 + 1) % 2 ^ 64))) := by
  cases hx : xsks ctx.rx_queue_index with
  | false =>
    rw [run_match_drop ctx xsks st hm hx]
    dsimp only
    obtain ⟨e0, e1, e2, e3, _⟩ := chain_drop_slots st ctx.data.length
    refine ⟨?_, ?_, Or.inl ⟨rfl, ?_, ?_⟩⟩
    · rw [e0, h0]; rfl
    · rw [e1, h1]; rfl
    · rw [e2, h2]; rfl
    · rw [e3, h3]
  | true =>
    rw [run_match_redirect ctx xsks st hm hx]
    dsimp only
    obtain ⟨e0, e1, e2, e3, _⟩ := chain_redirect_slots st ctx.data.length
    refine ⟨?_, ?_, Or.inr ⟨rfl, ?_, ?_⟩⟩
    · rw [e0, h0]; rfl
    · rw [e1, h1]; rfl
    · rw [e2, h2]
    · rw [e3, h3]; rfl

/-- C5: across N invocations that each match the WRAITH criteria,
`rx_packets` rises by exactly N and `rx_bytes` by the sum of the
matched frames' lengths (mod 2^64), whatever each dispatch outcome
was; the dropped and redirected increments D and R satisfy
D + R = N. -/
theorem matched_counters_aggregate (l : List XdpMd) (xsks : Nat → Bool)
    (st : StatsMap) (v0 v1 v2 v3 : Nat)
    (hm : ∀ c ∈ l, matches_wraith c.data = true)
    (h0 : st STAT_RX_PACKETS = some v0) (h1 : st STAT_RX_BYTES = some v1)
    (h2 : st STAT_DROPPED = some v2) (h3 : st STAT_REDIRECTED = some v3)
    (hb0 : v0 < 2 ^ 64) (hb1 : v1 < 2 ^ 64)
    (hb2 : v2 < 2 ^ 64) (hb3 : v3 < 2 ^ 64) :
    ∃ D R, D + R = l.length
      ∧ runAll l xsks st STAT_RX_PACKETS = some ((v0 + l.length) % 2 ^ 64)
      ∧ runAll l xsks st STAT_RX_BYTES
          = some ((v1 + (l.map (fun c => c.data.length)).sum) % 2 ^ 64)
      ∧ runAll l xsks st STAT_DROPPED = some ((v2 + D) % 2 ^ 64)
      ∧ runAll l xsks st STAT_REDIRECTED = some ((v3 + R) % 2 ^ 64) := by
  induction l generalizing st v0 v1 v2 v3 with
  | nil =>
    refine ⟨0, 0, rfl, ?_, ?_, ?_, ?_⟩
    · show st STAT_RX_PACKETS = _
      rw [h0]
      simp
      omega
    · show st STAT_RX_BYTES = _
      rw [h1]
      simp
      omega
    · show st STAT_DROPPED = _
      rw [h2]
      simp
      omega
    · show st STAT_REDIRECTED = _
      rw [h3]
      simp
      omega
  | cons c cs ih =>
    have hc : matches_wraith c.data = true := hm c (by simp)
    have hrest : ∀ x ∈ cs, matches_wraith x.data = true :=
      fun x hx => hm x (by simp [hx])
    obtain ⟨e0, e1, e23⟩ := run_match_slots c xsks st v0 v1 v2 v3 hc h0 h1 h2 h3
    have hM : (0 : Nat) < 2 ^ 64 := by positivity
    rcases e23 with ⟨hx, e2, e3⟩ | ⟨hx, e2, e3⟩
    · obtain ⟨D, R, hDR, f0, f1, f2, f3⟩ :=
        ih ((xdp_wraith_filter c xsks st).2) ((v0 + 1) % 2 ^ 64)
          ((v1 + c.data.length) % 2 ^ 64) ((v2 + 1) % 2 ^ 64) v3
          hrest e0 e1 e2 e3 (Nat.mod_lt _ hM) (Nat.mod_lt _ hM)
          (Nat.mod_lt _ hM) hb3
      refine ⟨D + 1, R, by rw [List.length_cons]; omega, ?_, ?_, ?_, ?_⟩
      · show runAll cs xsks _ STAT_RX_PACKETS = _
        rw [f0, Nat.mod_add_mod]
        have h : v0 + 1 + cs.length = v0 + (c :: cs).length := by
          rw [List.length_cons]; omega
        rw [h]
      · show runAll cs xsks _ STAT_RX_BYTES = _
        rw [f1, Nat.mod_add_mod]
        have h : v1 + c.data.length + (cs.map (fun x => x.data.length)).sum
            = v1 + ((c :: cs).map (fun x => x.data.length)).sum := by
          rw [List.map_cons, List.sum_cons]; omega
        rw [h]
      · show runAll cs xsks _ STAT_DROPPED = _
        rw [f2, Nat.mod_add_mod]
        have h : v2 + 1 + D = v2 + (D + 1) := by omega
        rw [h]
      · exact f3
    · obtain ⟨D, R, hDR, f0, f1, f2, f3⟩ :=
        ih ((xdp_wraith_filter c xsks st).2) ((v0 + 1) % 2 ^ 64)
          ((v1 + c.data.length) % 2 ^ 64) v2 ((v3 + 1) % 2 ^ 64)
          hrest e0 e1 e2 e3 (Nat.mod_lt _ hM) (Nat.mod_lt _ hM)
          hb2 (Nat.mod_lt _ hM)
      refine ⟨D, R + 1, by rw [List.length_cons]; omega, ?_, ?_, ?_, ?_⟩
      · show runAll cs xsks _ STAT_RX_PACKETS = _
        rw [f0, Nat.mod_add_mod]
        have h : v0 + 1 + cs.length = v0 + (c :: cs).length := by
          rw [List.length_cons]; omega
        rw [h]
      · show runAll cs xsks _ STAT_RX_BYTES = _
        rw [f1, Nat.mod_add_mod]
        have h : v1 + c.data.length + (cs.map (fun x => x.data.length)).sum
            = v1 + ((c :: cs).map (fun x => x.data.length)).sum := by
          rw [List.map_cons, List.sum_cons]; omega
        rw [h]
      · exact f2
      · show runAll cs xsks _ STAT_REDIRECTED = _
        rw [f3, Nat.mod_add_mod]
        have h : v3 + 1 + R = v3 + (R + 1) := by omega
        rw [h]

/-- C5 witness: two matching frames (42-byte IPv4 on queue 0, 62-byte
IPv6 on queue 1, only queue 0 registered) leave `rx_packets` at 2 and
`rx_bytes` at 104. -/
theorem matched_counters_aggregate_w :
    runAll [⟨pktV4 0 0 0xA0 0x28, 0⟩, ⟨pktV6 0xA0 0x28, 1⟩] xsksQ st0
        STAT_RX_PACKETS = some 2
    ∧ runAll [⟨pktV4 0 0 0xA0 0x28, 0⟩, ⟨pktV6 0xA0 0x28, 1⟩] xsksQ st0
        STAT_RX_BYTES = some 104 := by
  obtain ⟨D, R, hDR, f0, f1, f2, f3⟩ := matched_counters_aggregate
    [⟨pktV4 0 0 0xA0 0x28, 0⟩, ⟨pktV6 0xA0 0x28, 1⟩] xsksQ st0 0 0 0 0
    (by decide) (by decide) (by decide) (by decide) (by decide)
    (by positivity) (by positivity) (by positivity) (by positivity)
  constructor
  · rw [f0]; decide
  · rw [f1]; decide

/-- C1: the code bug — the fragmentation check masks `frag_off` with
`bpf_htons(0x1FFF)`, which covers only the 13-bit fragment offset and
not the MF bit: a frame whose host-order `frag_off` is 0x2000 (MF set,
offset 0) is accepted by `parse_iphdr` and is redirected, whereas the
claim requires any fragmentation signal to force `XDP_PASS`. -/
theorem frag_mf_bit_not_masked :
    ip_frag_off (pktV4 0x20 0x00 0xA0 0x28) = 0x2000
    ∧ ip_frag_off (pktV4 0x20 0x00 0xA0 0x28) &&& 0x1FFF = 0
    ∧ parse_iphdr (pktV4 0x20 0x00 0xA0 0x28) = true
    ∧ (xdp_wraith_filter ⟨pktV4 0x20 0x00 0xA0 0x28, 0⟩ xsksT st0).1
        = XDP_REDIRECT := by
  decide

/-- C10: `parse_iphdr` never checks `ihl ≥ 5`: on `pktIhl0` (version 4,
IHL 0, protocol UDP, no fragmentation bits) the UDP parse succeeds
with the UDP view at offset 14 — inside the IPv4 header itself — so
the IPv4 total-length field bytes are read as the destination port
(40000) and the frame is classified as WRAITH traffic and
redirected. -/
theorem ihl_below_five_accepted :
    ip_ihl pktIhl0 = 0
    ∧ udp_off_v4 pktIhl0 = iphdr_off
    ∧ udp_off_v4 pktIhl0 < iphdr_off + sizeof_iphdr
    ∧ parse_iphdr pktIhl0 = true
    ∧ parse_udphdr_v4 pktIhl0 = true
    ∧ udp_dest_v4 pktIhl0 = readBE16 pktIhl0 (iphdr_off + 2)
    ∧ udp_dest_v4 pktIhl0 = 40000
    ∧ is_wraith_port (udp_dest_v4 pktIhl0) = true
    ∧ (xdp_wraith_filter ⟨pktIhl0, 0⟩ xsksT st0).1 = XDP_REDIRECT := by
  decide
